import Mathlib

/-!
Shallow embedding of the drought-characteristics core of the dmosat
repository (src/dmosat/dmosat.py and the threshold_mask helper of
src/dmosat/utils.py), together with theorems settling the frozen claims
about it. One series (one pixel along the time axis) is a list of cell
values; IEEE NaN, the missing-value marker, is modelled by `none`.
-/

namespace Dmosat

/-- Message of a Python TypeError. -/
def typeErrorMsg : String := "TypeError"

/-- Message of a Python NameError. -/
def nameErrorMsg : String := "NameError"

/-- A floating-point cell value of a DataArray: `none` models IEEE NaN (the
missing-value marker), `some q` models a finite reading. -/
abbrev Val := Option ℚ

/-- Python float comparison `x <= t`: any comparison involving NaN is False. -/
def valLe : Val → Val → Bool
  | some a, some b => decide (a ≤ b)
  | _, _ => false

/-- A Python value passed as a threshold argument: `Py.none` is Python None,
`Py.float v` a float (possibly NaN), `Py.str s` a string (wrong type). -/
inductive Py where
  | none
  | float (v : Val)
  | str (s : String)
deriving DecidableEq

/-- Result of a reducer call on one series: either the untouched input data
(the source returns `data` unchanged when threshold is None) or one reduced
value per series. -/
inductive ReducerResult where
  | passthrough (data : List Val)
  | value (v : Val)
deriving DecidableEq

instance {ε α : Type} [DecidableEq ε] [DecidableEq α] : DecidableEq (Except ε α) :=
  fun a b =>
    match a, b with
    | Except.ok x, Except.ok y =>
      if h : x = y then Decidable.isTrue (by rw [h])
      else Decidable.isFalse (fun hh => h (by injection hh))
    | Except.error x, Except.error y =>
      if h : x = y then Decidable.isTrue (by rw [h])
      else Decidable.isFalse (fun hh => h (by injection hh))
    | Except.ok _, Except.error _ => Decidable.isFalse (fun hh => Except.noConfusion hh)
    | Except.error _, Except.ok _ => Decidable.isFalse (fun hh => Except.noConfusion hh)

/-- NaN-skipping sum along time: models `mask.sum("time")` (xarray defaults
to skipna=True, and the sum of an all-NaN series is 0). -/
def sumSkipNaN (s : List Val) : ℚ := (s.filterMap id).sum

/-- Elementwise mask `xarray.where(data<=threshold, 1, np.nan)`: 1 where the
value is at or below the threshold, NaN everywhere else (a NaN input
compares False with the threshold, hence stays NaN). -/
def maskList (data : List Val) (t : Val) : List Val :=
  data.map (fun v => if valLe v t then some 1 else Option.none)

/-- Models `DroughtCharacteristics._mask_data(self, data, threshold=None)`:
with threshold None the data is returned unchanged; with a float threshold
the elementwise mask is returned; comparing a float array with a string
raises TypeError. -/
def mask_data (data : List Val) (threshold : Py) : Except String (List Val) :=
  match threshold with
  | Py.none => Except.ok data
  | Py.float t => Except.ok (maskList data t)
  | Py.str _ => Except.error typeErrorMsg

/-- Models `DroughtCharacteristics._size(self, data)` on the shape tuple of
the array: 1 when the array has fewer than two dimensions, otherwise the
extent of the first dimension (the time axis for a (time, y, x) array). -/
def size_of_data (shape : List ℕ) : ℕ :=
  if shape.length < 2 then 1 else shape.headD 1

/-- Linear scan computing the maximal runs of `true` as (start, length)
pairs: models the matches of `re.finditer` with pattern "[a]+" over the
string that has an "a" at every non-NaN position and a "1" at every NaN
position. Carries the current position and the currently open run. -/
def runsGo : List Bool → ℕ → Option (ℕ × ℕ) → List (ℕ × ℕ)
  | [], _, Option.none => []
  | [], _, some r => [r]
  | false :: rest, i, Option.none => runsGo rest (i + 1) Option.none
  | true :: rest, i, Option.none => runsGo rest (i + 1) (some (i, 1))
  | false :: rest, i, some r => r :: runsGo rest (i + 1) Option.none
  | true :: rest, i, some (s, l) => runsGo rest (i + 1) (some (s, l + 1))

/-- The maximal runs of `true` in a boolean sequence, as (start, length). -/
def extractRuns (a : List Bool) : List (ℕ × ℕ) := runsGo a 0 Option.none

/-- The run lengths, exactly what the source comprehension keeps from the
regex matches (match end minus match start for each maximal run). -/
def runLens (a : List Bool) : List ℕ := (extractRuns a).map Prod.snd

/-- Models `DroughtCharacteristics._mean_duration(self, a)`: NaN when every
entry is NaN, otherwise the mean (np.nanmean) of the lengths of the maximal
non-NaN runs. -/
def mean_duration (a : List Val) : Val :=
  if a.all Option.isNone then Option.none
  else
    let lens := runLens (a.map Option.isSome)
    some ((lens.map (fun n => (n : ℚ))).sum / (lens.length : ℚ))

/-- Models the inner `_total_event(a)` of `drought_event`: NaN when every
entry is NaN; otherwise the runs of length at least `event` are kept and
their number is returned (`len(count)` when the filtered list is nonempty,
`0.` when it is empty). -/
def total_event (a : List Val) (event : ℤ) : Val :=
  if a.all Option.isNone then Option.none
  else if ((runLens (a.map Option.isSome)).filter (fun (l : ℕ) => decide (event ≤ (l : ℤ)))).isEmpty
  then some 0
  else some ((((runLens (a.map Option.isSome)).filter
      (fun (l : ℕ) => decide (event ≤ (l : ℤ)))).length : ℚ))

/-- Models `drought_event(data, event=None)` on one series: the event-length
threshold defaults to 3, then `_total_event` is applied along time. -/
def drought_event (data : List Val) (event : Option ℤ) : Val :=
  total_event data (event.getD 3)

/-- Models `DroughtCharacteristics.drought_frequency(self, data, threshold=None)`
on one series: with threshold None the data is returned unchanged. Otherwise
the source calls `self._mask_data(data)` WITHOUT forwarding the threshold, so
`_mask_data` takes its None default and returns the raw data; the raw values
are then summed along time (NaN skipped), divided by `_size(data)`, times
100, and any result at or below 0 is remapped to NaN. -/
def drought_frequency (data : List Val) (sz : ℕ) (threshold : Py) :
    Except String ReducerResult :=
  match threshold with
  | Py.none => Except.ok (ReducerResult.passthrough data)
  | _ =>
    match mask_data data Py.none with
    | Except.error e => Except.error e
    | Except.ok mask =>
      let dc : ℚ := sumSkipNaN mask / (sz : ℚ) * 100
      Except.ok (ReducerResult.value (if dc ≤ 0 then Option.none else some dc))

/-- Models `DroughtCharacteristics.drought_duration(self, data, threshold=None)`
on one series: with threshold None the data is returned unchanged; otherwise
`_mean_duration` is applied along time to `self._mask_data(data, threshold)`. -/
def drought_duration (data : List Val) (threshold : Py) :
    Except String ReducerResult :=
  match threshold with
  | Py.none => Except.ok (ReducerResult.passthrough data)
  | _ =>
    match mask_data data threshold with
    | Except.error e => Except.error e
    | Except.ok mask => Except.ok (ReducerResult.value (mean_duration mask))

/-- The frequency that claim C1 describes (spec-side definition, kept for
comparison with the source-side `drought_frequency`): count of positions
with value at or below the threshold, divided by the series length, times
100, with any result at or below 0 remapped to NaN. -/
def drought_frequency_claimed (data : List Val) (t : Val) : Val :=
  let dc : ℚ := ((data.filter (fun v => valLe v t)).length : ℚ)
                 / ((data.length : ℚ)) * 100
  if dc ≤ 0 then Option.none else some dc

/-- The global names bound at module level in `utils.py`: its imports bind
os, relativedelta, datetime, re, np, DataArray, open_rasterio, and the two
class statements bind RasterReader and TimeDimension. The bare module name
`xarray` is never bound there (the module only does
`from xarray import DataArray`). -/
def utils_module_names : List String :=
  ["os", "relativedelta", "datetime", "re", "np", "DataArray",
   "open_rasterio", "RasterReader", "TimeDimension"]

/-- The global name that the body of `TimeDimension.threshold_mask` resolves
first when evaluating `xarray.where(...)`. -/
def xarrayName : String := "xarray"

/-- Models `TimeDimension.threshold_mask(self, data, threshold)`: Python
evaluates the callable expression `xarray.where` before its arguments, so
the body first resolves the global name `xarray` in the utils module scope;
since it is unbound there, a NameError is raised; were it bound, the
elementwise mask would be computed (with TypeError on a wrong-typed
threshold). -/
def threshold_mask (data : List Val) (t : Py) : Except String (List Val) :=
  if xarrayName ∈ utils_module_names then
    match t with
    | Py.float tv => Except.ok (maskList data tv)
    | _ => Except.error typeErrorMsg
  else Except.error nameErrorMsg

/-- A sample string argument used as a wrong-typed threshold in witnesses. -/
def sampleStringArg : String := "abc"

/-- The emitted run lengths of `runsGo` always sum to the number of `true`
entries of the remaining input plus the length of the currently open run. -/
theorem runsGo_sum (a : List Bool) : ∀ (i : ℕ) (st : Option (ℕ × ℕ)),
    ((runsGo a i st).map Prod.snd).sum = a.count true + (st.map Prod.snd).getD 0 := by
  induction a with
  | nil =>
    intro i st
    cases st with
    | none => simp [runsGo]
    | some r => simp [runsGo]
  | cons b rest ih =>
    intro i st
    cases st with
    | none =>
      cases b
      · simpa [runsGo, List.count_cons] using ih (i + 1) Option.none
      · have hh := ih (i + 1) (some (i, 1))
        simp [runsGo, List.count_cons] at hh ⊢
        omega
    | some r =>
      obtain ⟨s, l⟩ := r
      cases b
      · have hh := ih (i + 1) Option.none
        simp [runsGo, List.count_cons] at hh ⊢
        omega
      · have hh := ih (i + 1) (some (s, l + 1))
        simp [runsGo, List.count_cons] at hh ⊢
        omega

/-- Closed form of `total_event`: NaN on an all-NaN series, otherwise the
number of runs whose length reaches the event threshold (the two source
branches both return that number, since an empty filtered list has length
zero). -/
theorem total_event_eq (a : List Val) (e : ℤ) :
    total_event a e = if a.all Option.isNone then Option.none
      else some ((((runLens (a.map Option.isSome)).filter
          (fun (l : ℕ) => decide (e ≤ (l : ℤ)))).length : ℚ)) := by
  unfold total_event
  by_cases h : a.all Option.isNone = true
  · rw [if_pos h, if_pos h]
  · rw [if_neg h, if_neg h]
    by_cases hc : ((runLens (a.map Option.isSome)).filter
        (fun (l : ℕ) => decide (e ≤ (l : ℤ)))).isEmpty = true
    · rw [if_pos hc, List.isEmpty_iff.mp hc]
      norm_num
    · rw [if_neg hc]

/-- The NaN-skipping sum of an all-NaN series is zero. -/
theorem sumSkipNaN_of_all_none (data : List Val) (h : ∀ v ∈ data, v = Option.none) :
    sumSkipNaN data = 0 := by
  unfold sumSkipNaN
  have hnil : data.filterMap id = [] := by
    rw [List.filterMap_eq_nil_iff]
    intro a ha
    simpa using h a ha
  rw [hnil]
  rfl

/-- A series whose members are all `none` passes the all-NaN check. -/
theorem all_isNone_of_forall_none (data : List Val) (h : ∀ v ∈ data, v = Option.none) :
    data.all Option.isNone = true :=
  List.all_eq_true.mpr (fun v hv => by rw [h v hv]; rfl)

/-- C1: the claim says drought_frequency counts the positions at or below
the threshold, divides by the series length, multiplies by 100 and remaps
nonpositive results to NaN. The code never forwards the threshold to
`_mask_data`, so the raw values are summed instead: on the series [2.0]
with threshold 1.0 the code yields 200.0 while the claimed computation
(zero drought positions) yields NaN. -/
theorem drought_frequency_unmasked_bug :
    drought_frequency [some 2] (size_of_data [1]) (Py.float (some 1))
      = Except.ok (ReducerResult.value (some 200)) ∧
    drought_frequency_claimed [some 2] (some 1) = Option.none := by
  constructor
  · norm_num [drought_frequency, mask_data, sumSkipNaN, size_of_data,
      List.filterMap_cons, List.filterMap_nil]
  · norm_num [drought_frequency_claimed, valLe]

/-- C2: on the indicator series [D,D,N,D,D,D,N,M,D] (in the code, D is the
value 1 and both N and M are NaN), run extraction yields runs of length 2
at index 0, 3 at index 3 and 1 at index 8; the mean duration is 2.0; and
the event count with event-length threshold 3 is 1. -/
theorem scenario_run_extraction :
    extractRuns (([some 1, some 1, Option.none, some 1, some 1, some 1,
        Option.none, Option.none, some 1] : List Val).map Option.isSome)
      = [(0, 2), (3, 3), (8, 1)] ∧
    mean_duration ([some 1, some 1, Option.none, some 1, some 1, some 1,
        Option.none, Option.none, some 1] : List Val) = some 2 ∧
    drought_event ([some 1, some 1, Option.none, some 1, some 1, some 1,
        Option.none, Option.none, some 1] : List Val) (some 3) = some 1 := by
  refine ⟨by decide, ?_, by decide⟩
  norm_num [mean_duration, runLens, extractRuns, runsGo]

/-- C3: for every indicator series, the lengths of the extracted maximal
runs sum to the number of DROUGHT (true) positions of the series. -/
theorem sum_runLens_eq_count (s : List Bool) :
    (runLens s).sum = s.count true := by
  have h := runsGo_sum s 0 Option.none
  simpa [runLens, extractRuns] using h

/-- C4 counterexample: masking does not produce three distinguishable
states. On the one-element series [5.0] (present, above threshold 1.0) and
the one-element series [NaN] (missing), the masked outputs are the same
marker, so no assignment of distinct NOT_DROUGHT and MISSING markers
matches the code. -/
theorem mask_not_three_states :
    ¬ ∃ nd m : Val, nd ≠ m ∧
      mask_data [some 5] (Py.float (some 1)) = Except.ok [nd] ∧
      mask_data [Option.none] (Py.float (some 1)) = Except.ok [m] := by
  rintro ⟨nd, m, hne, h1, h2⟩
  have e1 : mask_data [some 5] (Py.float (some 1))
      = Except.ok [(Option.none : Val)] := by decide
  have e2 : mask_data [Option.none] (Py.float (some 1))
      = Except.ok [(Option.none : Val)] := by decide
  rw [e1] at h1
  rw [e2] at h2
  simp only [Except.ok.injEq, List.cons.injEq, and_true] at h1 h2
  rw [← h1, ← h2] at hne
  exact hne rfl

/-- C4 amended: for every series and float threshold, masking produces a
series of the same length, order preserved, whose value at each position is
DROUGHT (the value 1) iff the source value is at or below the threshold,
and the missing marker (NaN) otherwise — MISSING and NOT_DROUGHT positions
both carry NaN, so only two states are distinguishable. -/
theorem mask_two_states (data : List Val) (t : Val) (out : List Val)
    (h : mask_data data (Py.float t) = Except.ok out) :
    out.length = data.length ∧
    ∀ i : Fin data.length,
      out[(i : ℕ)]? = some (if valLe (data.get i) t then some 1 else Option.none) := by
  have hout : out = maskList data t := by
    simp only [mask_data, Except.ok.injEq] at h
    exact h.symm
  subst hout
  refine ⟨by simp [maskList], ?_⟩
  intro i
  have hi : (i : ℕ) < data.length := i.isLt
  simp only [maskList, List.getElem?_map]
  rw [List.getElem?_eq_getElem hi]
  simp [List.get_eq_getElem]

/-- C4 witness: the amended statement at the series [0.0, NaN] with
threshold 1.0, whose mask is [1, NaN]. -/
theorem mask_two_states_witness :
    ([some 1, Option.none] : List Val).length = ([some 0, Option.none] : List Val).length ∧
    ∀ i : Fin ([some 0, Option.none] : List Val).length,
      (([some 1, Option.none] : List Val))[(i : ℕ)]?
        = some (if valLe (([some 0, Option.none] : List Val).get i) (some 1)
                then some 1 else Option.none) :=
  mask_two_states [some 0, Option.none] (some 1) [some 1, Option.none] (by decide)

/-- C5: on a series that is entirely missing, drought_frequency (with any
provided float threshold), drought_duration and drought_event all return
NaN, never 0: the NaN-skipping sum of an all-NaN series is 0, which the
frequency remap turns into NaN, and the other two reducers hit their
all-NaN check. -/
theorem all_missing_reducers (data : List Val) (sz : ℕ) (t : Val) (e : Option ℤ)
    (h : ∀ v ∈ data, v = Option.none) :
    drought_frequency data sz (Py.float t) = Except.ok (ReducerResult.value Option.none) ∧
    drought_duration data (Py.float t) = Except.ok (ReducerResult.value Option.none) ∧
    drought_event data e = Option.none := by
  refine ⟨?_, ?_, ?_⟩
  · have hs : sumSkipNaN data = 0 := sumSkipNaN_of_all_none data h
    simp [drought_frequency, mask_data, hs]
  · have hm : ∀ v ∈ maskList data t, v = Option.none := by
      intro v hv
      rcases List.mem_map.mp hv with ⟨w, hw, rfl⟩
      rw [h w hw]
      rfl
    have hall := all_isNone_of_forall_none (maskList data t) hm
    simp [drought_duration, mask_data, mean_duration, hall]
  · have hall := all_isNone_of_forall_none data h
    simp [drought_event, total_event, hall]

/-- C5 witness: the all-missing series of length 5, with threshold 0 and
the default event length. -/
theorem all_missing_reducers_witness :
    drought_frequency [Option.none, Option.none, Option.none, Option.none, Option.none] 5
        (Py.float (some 0)) = Except.ok (ReducerResult.value Option.none) ∧
    drought_duration [Option.none, Option.none, Option.none, Option.none, Option.none]
        (Py.float (some 0)) = Except.ok (ReducerResult.value Option.none) ∧
    drought_event ([Option.none, Option.none, Option.none, Option.none, Option.none] : List Val)
        Option.none = Option.none :=
  all_missing_reducers [Option.none, Option.none, Option.none, Option.none, Option.none]
    5 (some 0) Option.none (by decide)

/-- C6 counterexample: for the raw series [5.0, 5.0, 5.0] with threshold
1.0 (all observations present, none crossing), the claimed asymmetry fails:
the masked series is all NaN, so drought_event returns NaN rather than 0,
and drought_frequency returns 500 (the raw values are summed because the
threshold is never forwarded) rather than NaN. -/
theorem frequency_event_asymmetry_counterexample :
    ¬ (drought_event ([Option.none, Option.none, Option.none] : List Val) Option.none
          = some 0 ∧
       drought_frequency [some 5, some 5, some 5] 3 (Py.float (some 1))
          = Except.ok (ReducerResult.value Option.none)) := by
  decide

/-- C6 amended: for the raw series [5.0, 5.0, 5.0] with threshold 1.0,
masking yields the all-NaN series, mean drought duration is NaN, the
drought event count is NaN as well (not 0, since the code cannot tell
not-drought from missing), and drought_frequency returns 500 (sum of the
raw values over the time-axis extent times 100), not NaN. -/
theorem frequency_event_asymmetry_amended :
    drought_frequency [some 5, some 5, some 5] 3 (Py.float (some 1))
      = Except.ok (ReducerResult.value (some 500)) ∧
    mask_data [some 5, some 5, some 5] (Py.float (some 1))
      = Except.ok [Option.none, Option.none, Option.none] ∧
    drought_duration [some 5, some 5, some 5] (Py.float (some 1))
      = Except.ok (ReducerResult.value Option.none) ∧
    drought_event ([Option.none, Option.none, Option.none] : List Val) Option.none
      = Option.none := by
  refine ⟨?_, by decide, by decide, by decide⟩
  norm_num [drought_frequency, mask_data, sumSkipNaN,
    List.filterMap_cons, List.filterMap_nil]

/-- C7: on any series that is not entirely missing, drought_event with the
event argument omitted behaves as with event length 3, and returns the
number of maximal runs of length at least 3; when runs exist but none
reaches 3 the filtered list is empty and the result is the number 0, not
NaN. -/
theorem drought_event_default_count (a : List Val) (h : a.all Option.isNone = false) :
    drought_event a Option.none = drought_event a (some 3) ∧
    drought_event a Option.none
      = some ((((runLens (a.map Option.isSome)).filter
          (fun (l : ℕ) => decide ((3 : ℤ) ≤ (l : ℤ)))).length : ℚ)) := by
  refine ⟨rfl, ?_⟩
  have hd : drought_event a Option.none = total_event a 3 := rfl
  rw [hd, total_event_eq]
  rw [if_neg (by rw [h]; exact Bool.false_ne_true)]

/-- C7 witness: the series [1, NaN, 1] has two runs of length 1, none
reaching the default event length 3, so the count is the number 0. -/
theorem drought_event_default_count_witness :
    drought_event ([some 1, Option.none, some 1] : List Val) Option.none
      = drought_event ([some 1, Option.none, some 1] : List Val) (some 3) ∧
    drought_event ([some 1, Option.none, some 1] : List Val) Option.none
      = some ((((runLens (([some 1, Option.none, some 1] : List Val).map Option.isSome)).filter
          (fun (l : ℕ) => decide ((3 : ℤ) ≤ (l : ℤ)))).length : ℚ)) :=
  drought_event_default_count [some 1, Option.none, some 1] (by decide)

/-- C8 counterexample: malformed parameters do not raise. A NaN threshold
is silently accepted: drought_duration computes an all-NaN mask and returns
NaN, drought_frequency ignores the threshold entirely and returns 200 on
the series [2.0]; a negative event length -1 is silently accepted and
counts every run. -/
theorem reducers_raise_counterexample :
    drought_duration [some 2] (Py.float Option.none)
      = Except.ok (ReducerResult.value Option.none) ∧
    drought_frequency [some 2] 1 (Py.float Option.none)
      = Except.ok (ReducerResult.value (some 200)) ∧
    drought_event [some 1] (some (-1)) = some 1 := by
  refine ⟨by decide, ?_, by decide⟩
  norm_num [drought_frequency, mask_data, sumSkipNaN,
    List.filterMap_cons, List.filterMap_nil]

/-- C8 amended: the reducers never raise on data content, and malformed
parameters are silently accepted rather than raised at the call boundary:
any float threshold (finite or NaN) gives an ok result in drought_frequency
and drought_duration, drought_frequency returns the same result even for a
wrong-typed (string) threshold because it never uses the threshold, and a
negative event length counts every run; the only parameter that raises is a
wrong-typed threshold in drought_duration, through the elementwise
comparison inside the mask. -/
theorem reducers_silent_on_bad_params (data : List Val) (sz : ℕ) (t : Val) (s : String)
    (h : data.all Option.isNone = false) :
    (∃ r, drought_frequency data sz (Py.float t) = Except.ok r) ∧
    drought_frequency data sz (Py.str s) = drought_frequency data sz (Py.float t) ∧
    (∃ r, drought_duration data (Py.float t) = Except.ok r) ∧
    drought_duration data (Py.str s) = Except.error typeErrorMsg ∧
    drought_event data (some (-1))
      = some (((runLens (data.map Option.isSome)).length : ℚ)) := by
  refine ⟨⟨_, rfl⟩, rfl, ⟨_, rfl⟩, rfl, ?_⟩
  have hd : drought_event data (some (-1)) = total_event data (-1) := rfl
  rw [hd, total_event_eq]
  rw [if_neg (by rw [h]; exact Bool.false_ne_true)]
  congr 2
  rw [List.filter_eq_self.mpr (fun l _ => decide_eq_true (by omega))]

/-- C8 witness: the amended statement at the series [1.0] with size 1, a
NaN threshold, the sample string threshold, and the one run of length 1
counted by the negative event length. -/
theorem reducers_silent_on_bad_params_witness :
    (∃ r, drought_frequency [some 1] 1 (Py.float Option.none) = Except.ok r) ∧
    drought_frequency [some 1] 1 (Py.str sampleStringArg)
      = drought_frequency [some 1] 1 (Py.float Option.none) ∧
    (∃ r, drought_duration [some 1] (Py.float Option.none) = Except.ok r) ∧
    drought_duration [some 1] (Py.str sampleStringArg) = Except.error typeErrorMsg ∧
    drought_event [some 1] (some (-1))
      = some (((runLens (([some 1] : List Val).map Option.isSome)).length : ℚ)) :=
  reducers_silent_on_bad_params [some 1] 1 Option.none sampleStringArg (by decide)

/-- C9: drought_frequency gives the same result for any two provided float
thresholds, because the internal call to the mask never forwards the
threshold: the definition is threshold-independent on the non-None branch. -/
theorem drought_frequency_ignores_threshold (data : List Val) (sz : ℕ) (t1 t2 : Val) :
    drought_frequency data sz (Py.float t1) = drought_frequency data sz (Py.float t2) := rfl

/-- C10: the exported threshold_mask always raises NameError, for every
series and every threshold value: evaluating the body first resolves the
global name xarray in the utils module, which binds DataArray but never the
bare name xarray. -/
theorem threshold_mask_name_error (data : List Val) (t : Py) :
    threshold_mask data t = Except.error nameErrorMsg := by
  simp only [threshold_mask]
  rw [if_neg (by decide)]

end Dmosat
